import Mathlib

/-!
Verification of the nirinit session save/restore engine.

The Rust source (src/main.rs) is shallowly embedded: Rust `&str`/`String`
values are modelled as `List Char` (faithful for the operations used here,
since UTF-8 byte order and slicing agree with code-point order and
character slicing at character boundaries), the compositor IPC and the
filesystem are modelled as explicit oracles passed in, and fallible code
returns `Except`.  Machine-integer widths (`u8`, `u64`, `i32`) are modelled
as `Nat`/`Int`; no operation in the embedded code can overflow them.
-/

namespace Nirinit

/-- Rust string slices, modelled as lists of unicode scalar values. -/
abbrev RStr := List Char

/-- Conversion from Lean string literals, used for concrete test inputs. -/
def toRStr (s : String) : RStr := s.toList

/-- Rust `char::is_whitespace`: the Unicode White_Space property. -/
def isRustWhitespace (c : Char) : Bool :=
  let n := c.toNat
  (0x09 ≤ n && n ≤ 0x0d) || n = 0x20 || n = 0x85 || n = 0xa0 || n = 0x1680 ||
  (0x2000 ≤ n && n ≤ 0x200a) || n = 0x2028 || n = 0x2029 || n = 0x202f ||
  n = 0x205f || n = 0x3000

/-- Rust `str::trim`: strip leading and trailing whitespace. -/
def rstrTrim (s : RStr) : RStr :=
  ((s.dropWhile isRustWhitespace).reverse.dropWhile isRustWhitespace).reverse

/-- Rust `str::find(char)`: index of the first occurrence of a character
(character index; for the uses below this is interchangeable with the byte
index returned in Rust, because both sides of every comparison and every
slice boundary refer back to the same character positions). -/
def findChar (c : Char) : RStr → Option Nat
  | [] => none
  | d :: s => if d = c then some 0 else (findChar c s).map (· + 1)

/-- Rust slicing `&s[a..b]` (character positions). -/
def sliceCh (s : RStr) (a b : Nat) : RStr := (s.drop a).take (b - a)

/-- Rust `str::replacen(pat, to, count)` for a single-character pattern:
replace the first `count` occurrences of `pat` by `repl`. -/
def replacen : RStr → Char → RStr → Nat → RStr
  | [], _, _, _ => []
  | c :: s, pat, repl, n =>
    if n = 0 then c :: s
    else if c = pat then repl ++ replacen s pat repl (n - 1)
    else c :: replacen s pat repl n

/-- `extract_jetbrains_project_path` from src/main.rs.

The external adapter `dirs::home_dir().map(|h| h.to_str())` is passed in as
`home_dir : Option (Option RStr)`: the outer layer is whether a home
directory was found at all, the inner layer is whether its path rendered as
UTF-8 text (`to_str`). -/
def extract_jetbrains_project_path (home_dir : Option (Option RStr))
    (title : RStr) : Option RStr :=
  match findChar '[' title, findChar ']' title with
  | some start, some stop =>
    if start ≥ stop then none
    else
      let path := sliceCh title (start + 1) stop
      match path with
      | '~' :: _ => home_dir.map (fun home => replacen path '~' (home.getD []) 1)
      | _ => some path
  | _, _ => none

/-- Information extracted from a tmux window title (`TmuxInfo` in src/main.rs). -/
structure TmuxInfo where
  hostname : RStr
  session : RStr
deriving DecidableEq, Repr

/-- `extract_tmux_info` from src/main.rs: split a kitty window title of the
form `hostname ❐ session_name ● window_index program_name`. -/
def extract_tmux_info (title : RStr) : Option TmuxInfo :=
  match findChar '❐' title, findChar '●' title with
  | some start, some stop =>
    if start ≥ stop then none
    else
      let hostname := rstrTrim (title.take start)
      if hostname = [] then none
      else
        let session := rstrTrim (sliceCh title (start + 1) stop)
        if session = [] then none
        else some ⟨hostname, session⟩
  | _, _ => none

/-- `get_local_hostname` from src/main.rs; the read of /etc/hostname is the
oracle argument. -/
def get_local_hostname (hostnameFile : Option RStr) : Option RStr :=
  hostnameFile.map rstrTrim

/-! ## Data model -/

/-- The fields of a live niri IPC `Window` consumed by this program
(`layout_window_size` is `window.layout.window_size`). -/
structure Window where
  id : Nat
  app_id : Option RStr
  title : Option RStr
  workspace_id : Option Nat
  is_focused : Bool
  layout_window_size : Int × Int
deriving DecidableEq, Repr

/-- The fields of a live niri IPC `Workspace` consumed by this program. -/
structure Workspace where
  id : Nat
  idx : Nat
  name : Option RStr
  output : Option RStr
deriving DecidableEq, Repr

/-- `SessionWindow` from src/main.rs: one persisted window record. -/
structure SessionWindow where
  id : Nat
  app_id : Option RStr
  title : Option RStr
  launch_command : Option RStr
  workspace_idx : Option Nat
  workspace_name : Option RStr
  workspace_output : Option RStr
  is_focused : Bool
  window_size : Option (Int × Int)
deriving DecidableEq, Repr

/-- `Skip` from src/main.rs: the configured skip-list. -/
structure Skip where
  apps : List RStr
deriving DecidableEq, Repr

/-- `Config` from src/main.rs; the launch `HashMap` is modelled as an
association list queried with `List.lookup`. -/
structure Config where
  skip : Skip
  launch : List (RStr × RStr)
deriving DecidableEq, Repr

/-- `find_workspace_for_window` from src/main.rs. -/
def find_workspace_for_window (window : Window) (workspaces : List Workspace) :
    Option Workspace :=
  workspaces.find? (fun w => window.workspace_id == some w.id)

/-- The per-window record construction in `save_session` (the body of the
`windows.into_iter().map(..)` closure). -/
def sessionWindowOf (config : Config) (workspaces : List Workspace)
    (window : Window) : SessionWindow :=
  let workspace := find_workspace_for_window window workspaces
  let launch_command := window.app_id.bind (fun app_id =>
    (config.launch.lookup app_id).orElse (fun _ => some app_id))
  { id := window.id
    app_id := window.app_id
    title := window.title
    launch_command := launch_command
    workspace_idx := workspace.map (fun w => w.idx)
    workspace_name := workspace.bind (fun w => w.name)
    workspace_output := workspace.bind (fun w => w.output)
    is_focused := window.is_focused
    window_size := some window.layout_window_size }

/-! ## Replay ordering -/

/-- Strict byte-lexicographic order on Rust strings (Rust `Ord` for `str`;
for UTF-8 data, byte order coincides with code-point order). -/
def rstrLtb : RStr → RStr → Bool
  | [], [] => false
  | [], _ :: _ => true
  | _ :: _, [] => false
  | a :: as, b :: bs => decide (a.toNat < b.toNat) || (a == b && rstrLtb as bs)

/-- Rust derived `Ord` on `Option`, strict form: `None` sorts before
`Some`. -/
def optLtb (ltb : α → α → Bool) : Option α → Option α → Bool
  | none, none => false
  | none, some _ => true
  | some _, none => false
  | some a, some b => ltb a b

/-- The replay sort key of a record: the `sort_by_key` closure
`|w| (w.workspace_output, w.workspace_idx)` in `restore_session`. -/
def sessionKey (w : SessionWindow) : Option RStr × Option Nat :=
  (w.workspace_output, w.workspace_idx)

/-- Strict lexicographic order on replay keys: Rust's derived `Ord` on the
pair `(Option<&str>, Option<u8>)`. -/
def keyLtb (k l : Option RStr × Option Nat) : Bool :=
  optLtb rstrLtb k.1 l.1 ||
    (k.1 == l.1 && optLtb (fun a b => decide (a < b)) k.2 l.2)

/-- Non-strict companion of `keyLtb`. -/
def keyLeb (k l : Option RStr × Option Nat) : Bool := keyLtb k l || k == l

/-- The comparison `restore_session` sorts records with, as a `Prop`-valued
relation. -/
def recordLe (a b : SessionWindow) : Prop :=
  keyLeb (sessionKey a) (sessionKey b) = true

instance decRecordLe : DecidableRel recordLe :=
  fun _ _ => instDecidableEqBool _ _

/-- The replay ordering of `restore_session`:
`sorted_windows.sort_by_key(|w| (w.workspace_output, w.workspace_idx))`.
Modelled by a stable sort with the same key comparison; the claims proved
about it do not depend on which stable sorting algorithm is used. -/
def sortRecords (l : List SessionWindow) : List SessionWindow :=
  List.insertionSort recordLe l

/-! ## Snapshot serialization (serde_json, at the JSON-value level) -/

/-- JSON values: the fragment of serde_json used by the snapshot format. -/
inductive Json where
  | null : Json
  | bool (b : Bool) : Json
  | num (n : Int) : Json
  | str (s : RStr) : Json
  | arr (elems : List Json) : Json
  | obj (fields : List (RStr × Json)) : Json

/-- Serialization of an optional string field (`Option<String>`). -/
def encOptStr : Option RStr → Json
  | none => .null
  | some s => .str s

/-- Serialization of an optional unsigned field (`Option<u8>`). -/
def encOptNat : Option Nat → Json
  | none => .null
  | some n => .num (Int.ofNat n)

/-- Serialization of the optional `(i32, i32)` window size. -/
def encOptSize : Option (Int × Int) → Json
  | none => .null
  | some (w, h) => .arr [.num w, .num h]

/-- serde `Serialize` for `SessionWindow`: a JSON object with one member
per field, absent options rendered as `null`. -/
def encodeSessionWindow (w : SessionWindow) : Json :=
  .obj [
    (toRStr "id", .num (Int.ofNat w.id)),
    (toRStr "app_id", encOptStr w.app_id),
    (toRStr "title", encOptStr w.title),
    (toRStr "launch_command", encOptStr w.launch_command),
    (toRStr "workspace_idx", encOptNat w.workspace_idx),
    (toRStr "workspace_name", encOptStr w.workspace_name),
    (toRStr "workspace_output", encOptStr w.workspace_output),
    (toRStr "is_focused", Json.bool w.is_focused),
    (toRStr "window_size", encOptSize w.window_size)]

/-- Serialization of a whole session (`Vec<SessionWindow>`). -/
def encodeSessionList (l : List SessionWindow) : Json :=
  .arr (l.map encodeSessionWindow)

/-- Member lookup in a JSON object. -/
def jGet (fields : List (RStr × Json)) (name : RStr) : Option Json :=
  (fields.find? (fun p => p.1 == name)).map (fun p => p.2)

/-- A field serde requires to be present. -/
def reqField (fields : List (RStr × Json)) (name : RStr) : Except RStr Json :=
  match jGet fields name with
  | some v => .ok v
  | none => .error (toRStr "missing field")

/-- Deserialization of an optional string field. -/
def decOptStr : Json → Except RStr (Option RStr)
  | .null => .ok none
  | .str s => .ok (some s)
  | _ => .error (toRStr "expected string or null")

/-- Deserialization of an unsigned integer field. -/
def decU64 : Json → Except RStr Nat
  | .num (Int.ofNat n) => .ok n
  | _ => .error (toRStr "expected unsigned integer")

/-- Deserialization of an optional unsigned integer field. -/
def decOptNat : Json → Except RStr (Option Nat)
  | .null => .ok none
  | .num (Int.ofNat n) => .ok (some n)
  | _ => .error (toRStr "expected unsigned integer or null")

/-- Deserialization of a boolean field. -/
def decBool : Json → Except RStr Bool
  | .bool b => .ok b
  | _ => .error (toRStr "expected boolean")

/-- Deserialization of the optional `(i32, i32)` window size. -/
def decOptSize : Json → Except RStr (Option (Int × Int))
  | .null => .ok none
  | .arr [.num w, .num h] => .ok (some (w, h))
  | _ => .error (toRStr "expected size pair or null")

/-- serde `Deserialize` for `SessionWindow`: all fields are looked up by
name; a missing member of `Option` type deserializes to `None` (serde's
`missing_field` special-cases `deserialize_option`, and `title` and
`window_size` additionally carry `#[serde(default)]` in the source), while
the non-optional `id` and `is_focused` members are required. -/
def decodeSessionWindow (j : Json) : Except RStr SessionWindow :=
  match j with
  | .obj fields => do
    let id ← decU64 (← reqField fields (toRStr "id"))
    let app_id ← decOptStr ((jGet fields (toRStr "app_id")).getD .null)
    let title ← decOptStr ((jGet fields (toRStr "title")).getD .null)
    let launch_command ←
      decOptStr ((jGet fields (toRStr "launch_command")).getD .null)
    let workspace_idx ←
      decOptNat ((jGet fields (toRStr "workspace_idx")).getD .null)
    let workspace_name ←
      decOptStr ((jGet fields (toRStr "workspace_name")).getD .null)
    let workspace_output ←
      decOptStr ((jGet fields (toRStr "workspace_output")).getD .null)
    let is_focused ← decBool (← reqField fields (toRStr "is_focused"))
    let window_size ← decOptSize ((jGet fields (toRStr "window_size")).getD .null)
    pure { id := id, app_id := app_id, title := title,
           launch_command := launch_command, workspace_idx := workspace_idx,
           workspace_name := workspace_name,
           workspace_output := workspace_output, is_focused := is_focused,
           window_size := window_size }
  | _ => .error (toRStr "expected object")

/-- Deserialization of a whole session (`Vec<SessionWindow>`). -/
def decodeSessionList (j : Json) : Except RStr (List SessionWindow) :=
  match j with
  | .arr elems => decodeWindows elems
  | _ => .error (toRStr "expected array")
where
  decodeWindows : List Json → Except RStr (List SessionWindow)
    | [] => .ok []
    | j :: rest => do
      let w ← decodeSessionWindow j
      let ws ← decodeWindows rest
      pure (w :: ws)

/-! ## Compositor IPC model

The compositor, the filesystem and the external lookup files are modelled
as oracles: records of the outcomes the live system would give to each
request the code issues.  `socket.send(..)` returns
`Except Nat (Except RStr Response)`: the outer layer is the io-level send
result (io errors abstracted to numeric codes), the inner layer the
compositor's reply payload, mirroring Rust's `io::Result<Reply>` with
`Reply = Result<Response, String>`.  Purely informational `debug!`/`info!`
trace lines are not modelled; the log events that the claims talk about
(skip notices, warnings, spawn-failure errors) are. -/

/-- `WINDOW_POLL_INTERVAL` from src/main.rs, in milliseconds. -/
def WINDOW_POLL_INTERVAL : Nat := 250

/-- `NiriError` from src/main.rs; `io::Error` payloads abstracted to
numeric codes. -/
inductive NiriError where
  | reply (msg : RStr)
  | connect (e : Nat)
  | send (e : Nat)
deriving DecidableEq, Repr

/-- The niri IPC response variants this program distinguishes: `Handled`
versus anything else. -/
inductive Response where
  | handled
  | other (tag : Nat)
deriving DecidableEq, Repr

/-- Errors surfaced to the caller of save/restore (`eyre::Report`,
distinguished by origin). -/
inductive AppError where
  | niri (e : NiriError)
  | connectSocket (e : Nat)
  | readSession (e : Nat)
  | parseSession (msg : RStr)
  | writeSession (e : Nat)
deriving DecidableEq, Repr

/-- `WorkspaceReferenceArg` from niri-ipc (the two variants used). -/
inductive WorkspaceRef where
  | name (n : RStr)
  | index (i : Nat)
deriving DecidableEq, Repr

/-- One compositor action request issued over IPC. -/
inductive ActionEvent where
  | spawn (command : List RStr)
  | moveWindowToMonitor (id : Nat) (output : RStr)
  | moveWindowToWorkspace (window_id : Nat) (reference : WorkspaceRef)
      (focus : Bool)
  | setWindowWidth (id : Nat) (width : Int)
  | setWindowHeight (id : Nat) (height : Int)
deriving DecidableEq, Repr

/-- The log lines of save/restore that the specification talks about. -/
inductive LogEvent where
  | infoSkip (launch_command : RStr)
  | errorSpawnFailed (launch_command : RStr)
  | warnSpawnTimeout (launch_command : RStr)
  | warnMoveOutput
  | warnSetWidth
  | warnSetHeight
deriving DecidableEq, Repr

/-- Oracle for the external interactions of one `spawn_and_move_window`
call. -/
structure SpawnEnv where
  /-- `Socket::connect()` for the action socket. -/
  connect : Except Nat Unit
  /-- `niri_windows()` taken just before the spawn. -/
  windowsBefore : Except NiriError (List Window)
  /-- send of `Action::Spawn`. -/
  spawnSend : Except Nat (Except RStr Response)
  /-- `niri_windows()` in poll iteration `k` (0-based). -/
  pollWindows : Nat → Except NiriError (List Window)
  /-- send of `Action::MoveWindowToMonitor`. -/
  moveMonitorSend : Except Nat (Except RStr Response)
  /-- send of `Action::MoveWindowToWorkspace`. -/
  moveWorkspaceSend : Except Nat (Except RStr Response)
  /-- send of `Action::SetWindowWidth`. -/
  setWidthSend : Except Nat (Except RStr Response)
  /-- send of `Action::SetWindowHeight`. -/
  setHeightSend : Except Nat (Except RStr Response)
  /-- `dirs::home_dir()` and its `to_str` rendering. -/
  homeDir : Option (Option RStr)
  /-- content of /etc/hostname, when readable. -/
  hostnameFile : Option RStr
  /-- Edge's WorkspacesCache, parsed; `none` if missing or unparsable. -/
  edgeCache : Option Json

/-- Indexing `value["key"]` on a serde_json value: member lookup, `null`
when absent or not an object. -/
def jIndex (j : Json) (name : RStr) : Json :=
  match j with
  | .obj fields => (jGet fields name).getD .null
  | _ => .null

/-- serde_json `as_str`. -/
def jAsStr : Json → Option RStr
  | .str s => some s
  | _ => none

/-- serde_json `as_array`. -/
def jAsArr : Json → Option (List Json)
  | .arr es => some es
  | _ => none

/-- `get_edge_workspace_id` from src/main.rs: look up the id of the first
entry of `cache["workspaces"]` whose name matches; the read-and-parse of
the cache file is the oracle argument. -/
def get_edge_workspace_id (edgeCache : Option Json) (workspace_name : RStr) :
    Option RStr := do
  let cache ← edgeCache
  let arr ← jAsArr (jIndex cache (toRStr "workspaces"))
  let ws ← arr.find?
    (fun ws => jAsStr (jIndex ws (toRStr "name")) == some workspace_name)
  jAsStr (jIndex ws (toRStr "id"))

/-- Rust `str::starts_with(pat)` for a string pattern (pattern first). -/
def rstrStartsWithStr : RStr → RStr → Bool
  | [], _ => true
  | _ :: _, [] => false
  | p :: ps, c :: cs => p == c && rstrStartsWithStr ps cs

/-- Rust `char::to_ascii_lowercase`. -/
def charToAsciiLower (c : Char) : Char :=
  if 'A' ≤ c ∧ c ≤ 'Z' then Char.ofNat (c.toNat + 32) else c

/-- Rust `str::eq_ignore_ascii_case`. -/
def rstrEqIgnoreAsciiCase (a b : RStr) : Bool :=
  a.map charToAsciiLower == b.map charToAsciiLower

/-- The tmux wait-then-attach shell script built by `spawn_and_move_window`
(the `format!(..)` with the session name spliced in twice). -/
def tmuxScript (session : RStr) : RStr :=
  toRStr "for i in $(seq 1 20); do tmux has-session -t " ++ session ++
  toRStr " 2>/dev/null && break; sleep 0.5; done; tmux attach -t " ++
  session ++ toRStr " || tmux new-session \\; choose-tree -s"

/-- The app-specific command construction at the top of
`spawn_and_move_window` (the `let command = if .. else ..` chain). -/
def buildCommand (env : SpawnEnv) (launch_command app_id : RStr)
    (title : Option RStr) : List RStr :=
  if rstrStartsWithStr (toRStr "jetbrains-") app_id then
    match title with
    | some title =>
      match extract_jetbrains_project_path env.homeDir title with
      | some project_path => [launch_command, project_path]
      | none => [launch_command]
    | none => [launch_command]
  else if app_id == toRStr "microsoft-edge" then
    match title with
    | some workspace_name =>
      match get_edge_workspace_id env.edgeCache workspace_name with
      | some workspace_id =>
        [launch_command, toRStr "--launch-workspace=" ++ workspace_id]
      | none => [launch_command]
    | none => [launch_command]
  else if app_id == toRStr "kitty" then
    match title with
    | some title =>
      match extract_tmux_info title with
      | some tmux_info =>
        let local_hostname := get_local_hostname env.hostnameFile
        let is_local := (local_hostname.map
          (fun h => rstrEqIgnoreAsciiCase h tmux_info.hostname)).getD false
        if is_local then
          [launch_command, toRStr "-e", toRStr "sh", toRStr "-c",
            tmuxScript tmux_info.session]
        else
          [launch_command, toRStr "-e", toRStr "ssh", tmux_info.hostname,
            toRStr "-t", tmuxScript tmux_info.session]
      | none => [launch_command]
    | none => [launch_command]
  else
    [launch_command]

deriving instance DecidableEq for Except

/-- Observable outcome of one `spawn_and_move_window` call: the compositor
actions issued, the log lines emitted, the number of completed poll
iterations (each preceded by one sleep of `WINDOW_POLL_INTERVAL`), and the
returned result. -/
structure SpawnOutcome where
  actions : List ActionEvent
  logs : List LogEvent
  polls : Nat
  result : Except AppError Unit
deriving DecidableEq, Repr

/-- The search for the newly spawned window inside one poll: a window with
the expected `app_id` whose id was not recorded before the spawn. -/
def findNewWindow (windows : List Window) (app_id : RStr)
    (existing_window_ids : List Nat) : Option Window :=
  windows.find? (fun w =>
    w.app_id == some app_id && !(decide (w.id ∈ existing_window_ids)))

/-- The placement steps once a new window has been found: best-effort
move-to-output (send failure logged as a warning), the move-to-workspace
whose send or reply failure is propagated, then best-effort width/height
resizes. -/
def placeFound (env : SpawnEnv) (new_window : Window)
    (workspace_reference : WorkspaceRef) (workspace_output : Option RStr)
    (window_size : Option (Int × Int)) : SpawnOutcome :=
  let moveOutActions : List ActionEvent :=
    match workspace_output with
    | some output => [.moveWindowToMonitor new_window.id output]
    | none => []
  let moveOutLogs : List LogEvent :=
    match workspace_output with
    | some _ =>
      match env.moveMonitorSend with
      | .error _ => [.warnMoveOutput]
      | .ok _ => []
    | none => []
  let moveWsAction : ActionEvent :=
    .moveWindowToWorkspace new_window.id workspace_reference false
  match env.moveWorkspaceSend with
  | .error e =>
    { actions := moveOutActions ++ [moveWsAction], logs := moveOutLogs,
      polls := 0, result := .error (.niri (.send e)) }
  | .ok (.error msg) =>
    { actions := moveOutActions ++ [moveWsAction], logs := moveOutLogs,
      polls := 0, result := .error (.niri (.reply msg)) }
  | .ok (.ok _) =>
    let resizeActions : List ActionEvent :=
      match window_size with
      | some (w, h) =>
        [.setWindowWidth new_window.id w, .setWindowHeight new_window.id h]
      | none => []
    let resizeLogs : List LogEvent :=
      match window_size with
      | some _ =>
        (match env.setWidthSend with
          | .error _ => [.warnSetWidth]
          | .ok _ => []) ++
        (match env.setHeightSend with
          | .error _ => [.warnSetHeight]
          | .ok _ => [])
      | none => []
    { actions := moveOutActions ++ [moveWsAction] ++ resizeActions,
      logs := moveOutLogs ++ resizeLogs, polls := 0, result := .ok () }

/-- The `for _ in 0..20` wait loop of `spawn_and_move_window`:
sleep, list windows, search for the new window, place it when found;
`remaining` is the number of iterations left, `attempt` the 0-based index
of the current iteration. -/
def pollLoop (env : SpawnEnv) (launch_command app_id : RStr)
    (workspace_reference : WorkspaceRef) (workspace_output : Option RStr)
    (window_size : Option (Int × Int)) (existing_window_ids : List Nat) :
    Nat → Nat → SpawnOutcome
  | 0, _ =>
    { actions := [], logs := [.warnSpawnTimeout launch_command], polls := 0,
      result := .ok () }
  | remaining + 1, attempt =>
    match env.pollWindows attempt with
    | .error e =>
      { actions := [], logs := [], polls := 1, result := .error (.niri e) }
    | .ok windows =>
      match findNewWindow windows app_id existing_window_ids with
      | none =>
        let rest := pollLoop env launch_command app_id workspace_reference
          workspace_output window_size existing_window_ids remaining
          (attempt + 1)
        { rest with polls := rest.polls + 1 }
      | some new_window =>
        let placed := placeFound env new_window workspace_reference
          workspace_output window_size
        { placed with polls := placed.polls + 1 }

/-- The workspace target computation of `spawn_and_move_window`: a named
workspace takes precedence over an indexed one; with neither, placement is
skipped entirely after the spawn. -/
def workspaceRefOf (workspace_idx : Option Nat)
    (workspace_name : Option RStr) : Option WorkspaceRef :=
  match workspace_name with
  | some name => some (.name name)
  | none =>
    match workspace_idx with
    | some idx => some (.index idx)
    | none => none

/-- `spawn_and_move_window` from src/main.rs, as a function of the IPC
oracle: build the app-specific command, connect, snapshot existing window
ids, spawn (an unacknowledged spawn is logged and soft-fails), compute the
workspace target, then poll and place. -/
def spawn_and_move_window (env : SpawnEnv) (launch_command app_id : RStr)
    (title : Option RStr) (workspace_idx : Option Nat)
    (workspace_name : Option RStr) (workspace_output : Option RStr)
    (window_size : Option (Int × Int)) : SpawnOutcome :=
  let command := buildCommand env launch_command app_id title
  match env.connect with
  | .error e =>
    { actions := [], logs := [], polls := 0,
      result := .error (.connectSocket e) }
  | .ok () =>
    match env.windowsBefore with
    | .error e =>
      { actions := [], logs := [], polls := 0, result := .error (.niri e) }
    | .ok windows =>
      let existing_window_ids := windows.map (fun w => w.id)
      match env.spawnSend with
      | .error e =>
        { actions := [.spawn command], logs := [], polls := 0,
          result := .error (.niri (.send e)) }
      | .ok reply =>
        match reply with
        | .ok .handled =>
          match workspaceRefOf workspace_idx workspace_name with
          | none =>
            { actions := [.spawn command], logs := [], polls := 0,
              result := .ok () }
          | some workspace_reference =>
            let out := pollLoop env launch_command app_id workspace_reference
              workspace_output window_size existing_window_ids 20 0
            { out with actions := .spawn command :: out.actions }
        | _ =>
          { actions := [.spawn command],
            logs := [.errorSpawnFailed launch_command], polls := 0,
            result := .ok () }

/-! ## Save and restore -/

/-- Oracle for one `save_session` call. -/
structure SaveEnv where
  /-- `niri_windows()`. -/
  windows : Except NiriError (List Window)
  /-- `niri_workspaces()`. -/
  workspaces : Except NiriError (List Workspace)
  /-- `fs::write` of the serialized snapshot. -/
  writeResult : Except Nat Unit

/-- Outcome of `save_session`: the snapshot value handed to `fs::write`
(when reached) and the returned result. `serde_json::to_string_pretty` is
modelled as total at the JSON-value level. -/
structure SaveOutcome where
  written : Option Json
  result : Except AppError Unit

/-- `save_session` from src/main.rs: query windows and workspaces, build
one record per window preserving live query order, serialize, write. -/
def save_session (env : SaveEnv) (config : Config) : SaveOutcome :=
  match env.windows with
  | .error e => ⟨none, .error (.niri e)⟩
  | .ok windows =>
    match env.workspaces with
    | .error e => ⟨none, .error (.niri e)⟩
    | .ok workspaces =>
      let session_windows := windows.map (sessionWindowOf config workspaces)
      let json_data := encodeSessionList session_windows
      match env.writeResult with
      | .error e => ⟨some json_data, .error (.writeSession e)⟩
      | .ok () => ⟨some json_data, .ok ()⟩

/-- Oracle for one `restore_session` call. -/
structure RestoreEnv where
  /-- `session_path.exists()`. -/
  sessionExists : Bool
  /-- oracle of the bootstrap `save_session` call. -/
  saveEnv : SaveEnv
  /-- `fs::read_to_string(session_path)`. -/
  readFile : Except Nat RStr
  /-- the text-level JSON parse of that content (the lexical half of
  `serde_json::from_str`; the typed half is `decodeSessionList`). -/
  parsedJson : Except RStr Json
  /-- oracle for the spawn-and-place pass of the record at position `k` of
  the replay order. -/
  spawnEnvs : Nat → SpawnEnv

/-- Observable outcome of one `restore_session` call. -/
structure RestoreOutcome where
  /-- snapshot written by the bootstrap save, when that path was taken. -/
  saved : Option Json
  actions : List ActionEvent
  logs : List LogEvent
  result : Except AppError Unit

/-- The body of the per-record loop in `restore_session`: skip when the
launch command is absent or skip-listed, spawn-and-place only when both a
launch command and an `app_id` are present. -/
def processRecord (config : Config) (env : SpawnEnv)
    (window : SessionWindow) : SpawnOutcome :=
  match window.launch_command with
  | some launch_command =>
    if config.skip.apps.contains launch_command then
      { actions := [], logs := [.infoSkip launch_command], polls := 0,
        result := .ok () }
    else
      match window.app_id with
      | some app_id =>
        spawn_and_move_window env launch_command app_id window.title
          window.workspace_idx window.workspace_name window.workspace_output
          window.window_size
      | none => { actions := [], logs := [], polls := 0, result := .ok () }
  | none => { actions := [], logs := [], polls := 0, result := .ok () }

/-- The per-record loop of `restore_session` over the replay-ordered
records; `k` indexes the position in that order. A record whose processing
returns an error aborts the loop, propagating the error. -/
def restoreLoop (config : Config) (spawnEnvs : Nat → SpawnEnv) :
    List SessionWindow → Nat →
    List ActionEvent × List LogEvent × Except AppError Unit
  | [], _ => ([], [], .ok ())
  | w :: rest, k =>
    let out := processRecord config (spawnEnvs k) w
    match out.result with
    | .error e => (out.actions, out.logs, .error e)
    | .ok () =>
      let next := restoreLoop config spawnEnvs rest (k + 1)
      (out.actions ++ next.1, out.logs ++ next.2.1, next.2.2)

/-- `restore_session` from src/main.rs: bootstrap-save when no snapshot
exists, treat an empty file as nothing-to-restore, deserialize, sort into
replay order, then run the per-record loop. -/
def restore_session (config : Config) (env : RestoreEnv) : RestoreOutcome :=
  if !env.sessionExists then
    let saveOut := save_session env.saveEnv config
    { saved := saveOut.written, actions := [], logs := [],
      result := saveOut.result }
  else
    match env.readFile with
    | .error e =>
      { saved := none, actions := [], logs := [],
        result := .error (.readSession e) }
    | .ok session_data =>
      if session_data = [] then
        { saved := none, actions := [], logs := [], result := .ok () }
      else
        match env.parsedJson with
        | .error msg =>
          { saved := none, actions := [], logs := [],
            result := .error (.parseSession msg) }
        | .ok json =>
          match decodeSessionList json with
          | .error msg =>
            { saved := none, actions := [], logs := [],
              result := .error (.parseSession msg) }
          | .ok windows =>
            let sorted_windows := sortRecords windows
            let out := restoreLoop config env.spawnEnvs sorted_windows 0
            { saved := none, actions := out.1, logs := out.2.1,
              result := out.2.2 }

/-- A concrete oracle in which every external interaction succeeds and the
window list is always empty; used to instantiate witnesses. -/
def okSpawnEnv : SpawnEnv :=
  { connect := .ok (), windowsBefore := .ok [],
    spawnSend := .ok (.ok .handled), pollWindows := fun _ => .ok [],
    moveMonitorSend := .ok (.ok .handled),
    moveWorkspaceSend := .ok (.ok .handled),
    setWidthSend := .ok (.ok .handled), setHeightSend := .ok (.ok .handled),
    homeDir := none, hostnameFile := none, edgeCache := none }

end Nirinit

namespace Nirinit

/-! ## Theorems -/

theorem replacen_zero (s : RStr) (pat : Char) (repl : RStr) :
    replacen s pat repl 0 = s := by
  cases s <;> simp [replacen]

/-- Claim C2, counterexample: on the title `a[~/x]b` — whose first `[`
precedes its first `]` and whose bracketed substring starts with `~` — an
absent home directory makes project-path extraction return nothing, contrary
to the claim that extraction still returns a result in that case. -/
theorem c2_counterexample_home_none :
    findChar '[' (toRStr "a[~/x]b") = some 1 ∧
    findChar ']' (toRStr "a[~/x]b") = some 5 ∧
    sliceCh (toRStr "a[~/x]b") 2 5 = '~' :: '/' :: 'x' :: [] ∧
    extract_jetbrains_project_path none (toRStr "a[~/x]b") = none := by
  decide

/-- Claim C2, amended: for every title whose first `[` precedes its first
`]` and whose bracketed substring starts with `~`: when the home-directory
lookup resolves to nothing the extraction returns nothing; when it resolves
to a home whose textual rendering is unavailable, the `~` is rendered as
empty-string concatenation (the remainder of the path); when it resolves to
text `h`, the result is `h` concatenated with the remainder. -/
theorem c2_tilde_expansion (title : RStr) (a b : Nat) (rest : RStr)
    (ha : findChar '[' title = some a) (hb : findChar ']' title = some b)
    (hab : a < b) (hpath : sliceCh title (a + 1) b = '~' :: rest) :
    extract_jetbrains_project_path none title = none ∧
    extract_jetbrains_project_path (some none) title = some rest ∧
    ∀ h : RStr, extract_jetbrains_project_path (some (some h)) title =
      some (h ++ rest) := by
  have hnot : ¬ a ≥ b := Nat.not_le.mpr hab
  refine ⟨?_, ?_, fun h => ?_⟩ <;>
    simp [extract_jetbrains_project_path, ha, hb, hnot, hpath, replacen,
      replacen_zero]

/-- Claim C2, witness for the amended theorem at the concrete title
`a[~/x]b`. -/
theorem c2_tilde_expansion_witness :
    extract_jetbrains_project_path none (toRStr "a[~/x]b") = none ∧
    extract_jetbrains_project_path (some none) (toRStr "a[~/x]b") =
      some (toRStr "/x") ∧
    extract_jetbrains_project_path (some (some (toRStr "/home/u")))
      (toRStr "a[~/x]b") = some (toRStr "/home/u/x") := by
  have h := c2_tilde_expansion (toRStr "a[~/x]b") 1 5 (toRStr "/x")
    (by decide) (by decide) (by decide) (by decide)
  refine ⟨h.1, h.2.1, ?_⟩
  have h3 := h.2.2 (toRStr "/home/u")
  rw [h3]; decide

/-- Claim C6: multiplexer-session extraction succeeds exactly when the first
boundary marker precedes the first end marker, the trimmed text before the
boundary marker is non-empty, and the trimmed text between the markers is
non-empty; on success it returns exactly those two trimmed segments; and the
title `surfi1 ❐ dt-agent ● 2 zsh` yields hostname `surfi1` and session
`dt-agent`. -/
theorem c6_tmux_extraction :
    (∀ title : RStr, (extract_tmux_info title).isSome = true ↔
      ∃ a b, findChar '❐' title = some a ∧ findChar '●' title = some b ∧
        a < b ∧ rstrTrim (title.take a) ≠ [] ∧
        rstrTrim (sliceCh title (a + 1) b) ≠ []) ∧
    (∀ (title : RStr) (info : TmuxInfo), extract_tmux_info title = some info →
      ∃ a b, findChar '❐' title = some a ∧ findChar '●' title = some b ∧
        info.hostname = rstrTrim (title.take a) ∧
        info.session = rstrTrim (sliceCh title (a + 1) b)) ∧
    extract_tmux_info (toRStr "surfi1 ❐ dt-agent ● 2 zsh") =
      some ⟨toRStr "surfi1", toRStr "dt-agent"⟩ := by
  refine ⟨fun title => ?_, fun title info h => ?_, by decide⟩
  · unfold extract_tmux_info
    cases hA : findChar '❐' title with
    | none => simp
    | some a =>
      cases hB : findChar '●' title with
      | none => simp
      | some b =>
        dsimp only
        by_cases hord : a ≥ b
        · simp only [if_pos hord, Option.isSome_none, Bool.false_eq_true,
            false_iff]
          rintro ⟨a', b', ha', hb', hlt, -, -⟩
          cases ha'; cases hb'
          omega
        · simp only [if_neg hord]
          by_cases hh : rstrTrim (title.take a) = []
          · simp only [if_pos hh, Option.isSome_none, Bool.false_eq_true,
              false_iff]
            rintro ⟨a', b', ha', hb', -, hne, -⟩
            cases ha'
            exact hne hh
          · simp only [if_neg hh]
            by_cases hs : rstrTrim (sliceCh title (a + 1) b) = []
            · simp only [if_pos hs, Option.isSome_none, Bool.false_eq_true,
                false_iff]
              rintro ⟨a', b', ha', hb', -, -, hne⟩
              cases ha'; cases hb'
              exact hne hs
            · simp only [if_neg hs, Option.isSome_some, true_iff]
              exact ⟨a, b, rfl, rfl, Nat.lt_of_not_le hord, hh, hs⟩
  · unfold extract_tmux_info at h
    cases hA : findChar '❐' title with
    | none => rw [hA] at h; dsimp only at h; cases h
    | some a =>
      cases hB : findChar '●' title with
      | none => rw [hA, hB] at h; dsimp only at h; cases h
      | some b =>
        rw [hA, hB] at h; dsimp only at h
        split_ifs at h with hord hh hs
        cases h
        exact ⟨a, b, rfl, rfl, rfl, rfl⟩

/-- Claim C6, witness: the characterization applied at the concrete title
`surfi1 ❐ dt-agent ● 2 zsh`. -/
theorem c6_tmux_extraction_witness :
    ∃ a b, findChar '❐' (toRStr "surfi1 ❐ dt-agent ● 2 zsh") = some a ∧
      findChar '●' (toRStr "surfi1 ❐ dt-agent ● 2 zsh") = some b ∧
      (TmuxInfo.mk (toRStr "surfi1") (toRStr "dt-agent")).hostname =
        rstrTrim ((toRStr "surfi1 ❐ dt-agent ● 2 zsh").take a) ∧
      (TmuxInfo.mk (toRStr "surfi1") (toRStr "dt-agent")).session =
        rstrTrim (sliceCh (toRStr "surfi1 ❐ dt-agent ● 2 zsh") (a + 1) b) :=
  c6_tmux_extraction.2.1 _ _ c6_tmux_extraction.2.2

/-! ### Ordering lemmas -/

theorem char_toNat_inj {a b : Char} (h : a.toNat = b.toNat) : a = b := by
  have h2 := congrArg Char.ofNat h
  rwa [Char.ofNat_toNat, Char.ofNat_toNat] at h2

theorem rstrLtb_trans : ∀ a b c : RStr,
    rstrLtb a b = true → rstrLtb b c = true → rstrLtb a c = true := by
  intro a
  induction a with
  | nil =>
    intro b c hab hbc
    cases b with
    | nil => simp [rstrLtb] at hab
    | cons bh bt =>
      cases c with
      | nil => simp [rstrLtb] at hbc
      | cons ch ct => simp [rstrLtb]
  | cons ah at' ih =>
    intro b c hab hbc
    cases b with
    | nil => simp [rstrLtb] at hab
    | cons bh bt =>
      cases c with
      | nil => simp [rstrLtb] at hbc
      | cons ch ct =>
        simp only [rstrLtb, Bool.or_eq_true, Bool.and_eq_true,
          decide_eq_true_eq, beq_iff_eq] at hab hbc ⊢
        rcases hab with h1 | ⟨he, ht⟩
        · rcases hbc with h2 | ⟨he2, ht2⟩
          · left; omega
          · subst he2; left; exact h1
        · subst he
          rcases hbc with h2 | ⟨he2, ht2⟩
          · left; exact h2
          · subst he2; right; exact ⟨rfl, ih _ _ ht ht2⟩

theorem rstrLtb_total : ∀ a b : RStr,
    rstrLtb a b = false → rstrLtb b a = false → a = b := by
  intro a
  induction a with
  | nil =>
    intro b h1 _
    cases b with
    | nil => rfl
    | cons bh bt => simp [rstrLtb] at h1
  | cons ah at' ih =>
    intro b h1 h2
    cases b with
    | nil => simp [rstrLtb] at h2
    | cons bh bt =>
      simp only [rstrLtb, Bool.or_eq_false_iff, Bool.and_eq_false_iff,
        decide_eq_false_iff_not, beq_eq_false_iff_ne, ne_eq,
        Bool.not_eq_true] at h1 h2
      obtain ⟨hlt1, hrest1⟩ := h1
      obtain ⟨hlt2, hrest2⟩ := h2
      have heq : ah = bh := char_toNat_inj (by omega)
      subst heq
      rcases hrest1 with hne | htl1
      · exact absurd rfl hne
      · rcases hrest2 with hne | htl2
        · exact absurd rfl hne
        · rw [ih bt htl1 htl2]

theorem optLtb_trans {α : Type} (ltb : α → α → Bool)
    (htr : ∀ a b c, ltb a b = true → ltb b c = true → ltb a c = true) :
    ∀ x y z : Option α, optLtb ltb x y = true → optLtb ltb y z = true →
      optLtb ltb x z = true := by
  intro x y z hxy hyz
  cases x <;> cases y <;> cases z <;>
    simp_all [optLtb]
  exact htr _ _ _ hxy hyz

theorem optLtb_total {α : Type} (ltb : α → α → Bool)
    (hto : ∀ a b, ltb a b = false → ltb b a = false → a = b) :
    ∀ x y : Option α, optLtb ltb x y = false → optLtb ltb y x = false →
      x = y := by
  intro x y hxy hyx
  cases x <;> cases y <;> simp_all [optLtb]
  exact hto _ _ hxy hyx

theorem natLtb_trans : ∀ a b c : Nat, decide (a < b) = true →
    decide (b < c) = true → decide (a < c) = true := by
  intro a b c h1 h2
  simp only [decide_eq_true_eq] at *
  omega

theorem natLtb_total : ∀ a b : Nat, decide (a < b) = false →
    decide (b < a) = false → a = b := by
  intro a b h1 h2
  simp only [decide_eq_false_iff_not] at *
  omega

theorem keyLtb_trans {k l m : Option RStr × Option Nat}
    (hkl : keyLtb k l = true) (hlm : keyLtb l m = true) :
    keyLtb k m = true := by
  obtain ⟨k1, k2⟩ := k
  obtain ⟨l1, l2⟩ := l
  obtain ⟨m1, m2⟩ := m
  simp only [keyLtb, Bool.or_eq_true, Bool.and_eq_true, beq_iff_eq] at hkl hlm ⊢
  rcases hkl with h1 | ⟨he1, h1⟩
  · rcases hlm with h2 | ⟨he2, h2⟩
    · exact Or.inl (optLtb_trans rstrLtb rstrLtb_trans _ _ _ h1 h2)
    · subst he2; exact Or.inl h1
  · subst he1
    rcases hlm with h2 | ⟨he2, h2⟩
    · exact Or.inl h2
    · subst he2
      exact Or.inr ⟨rfl, optLtb_trans _ natLtb_trans _ _ _ h1 h2⟩

theorem keyLtb_total {k l : Option RStr × Option Nat}
    (hkl : keyLtb k l = false) (hlk : keyLtb l k = false) : k = l := by
  obtain ⟨k1, k2⟩ := k
  obtain ⟨l1, l2⟩ := l
  simp only [keyLtb, Bool.or_eq_false_iff, Bool.and_eq_false_iff,
    beq_eq_false_iff_ne, ne_eq, Bool.not_eq_true] at hkl hlk
  obtain ⟨hf1, hrest1⟩ := hkl
  obtain ⟨hf2, hrest2⟩ := hlk
  have hfst : k1 = l1 := optLtb_total rstrLtb rstrLtb_total _ _ hf1 hf2
  subst hfst
  rcases hrest1 with hne | hsnd1
  · exact absurd rfl hne
  · rcases hrest2 with hne | hsnd2
    · exact absurd rfl hne
    · have hsnd : k2 = l2 := optLtb_total _ natLtb_total _ _ hsnd1 hsnd2
      rw [hsnd]

theorem keyLtb_of_keyLeb_ne {k l : Option RStr × Option Nat}
    (hle : keyLeb k l = true) (hne : k ≠ l) : keyLtb k l = true := by
  simp only [keyLeb, Bool.or_eq_true, beq_iff_eq] at hle
  rcases hle with h | h
  · exact h
  · exact absurd h hne

theorem recordLe_total : ∀ a b : SessionWindow, recordLe a b ∨ recordLe b a := by
  intro a b
  unfold recordLe keyLeb
  by_cases h1 : keyLtb (sessionKey a) (sessionKey b) = true
  · left; simp [h1]
  · by_cases h2 : keyLtb (sessionKey b) (sessionKey a) = true
    · right; simp [h2]
    · have heq : sessionKey a = sessionKey b :=
        keyLtb_total (Bool.not_eq_true _ ▸ h1 : _) (Bool.not_eq_true _ ▸ h2 : _)
      left; simp [heq]

theorem recordLe_trans : ∀ a b c : SessionWindow,
    recordLe a b → recordLe b c → recordLe a c := by
  intro a b c hab hbc
  unfold recordLe keyLeb at *
  simp only [Bool.or_eq_true, beq_iff_eq] at hab hbc ⊢
  rcases hab with h1 | h1
  · rcases hbc with h2 | h2
    · exact Or.inl (keyLtb_trans h1 h2)
    · rw [← h2]; exact Or.inl h1
  · rw [h1]; exact hbc

/-- Claim C4: for any list of records with pairwise distinct
`(workspace_output, workspace_idx)` keys, the replay ordering is a
permutation of the records that is strictly ascending in the key, where an
absent component orders before any present one (`optLtb`) and present
components compare lexicographically. -/
theorem c4_replay_ordering (l : List SessionWindow)
    (hdist : l.Pairwise (fun a b => sessionKey a ≠ sessionKey b)) :
    (sortRecords l).Perm l ∧
    (sortRecords l).Pairwise
      (fun a b => keyLtb (sessionKey a) (sessionKey b) = true) := by
  haveI : IsTotal SessionWindow recordLe := ⟨recordLe_total⟩
  haveI : IsTrans SessionWindow recordLe := ⟨recordLe_trans⟩
  have hperm : (sortRecords l).Perm l := List.perm_insertionSort recordLe l
  have hsorted : List.Sorted recordLe (sortRecords l) :=
    List.sorted_insertionSort recordLe l
  have hdist2 : (sortRecords l).Pairwise
      (fun a b => sessionKey a ≠ sessionKey b) :=
    hdist.perm hperm.symm (fun hxy h => hxy h.symm)
  refine ⟨hperm, ?_⟩
  have hand := List.Pairwise.and hsorted hdist2
  exact hand.imp (fun hab => keyLtb_of_keyLeb_ne hab.1 hab.2)

/-- Claim C4, witness: two records, one on a present output with index 1,
one with both key components absent; the absent-key record replays first. -/
theorem c4_replay_ordering_witness :
    (sortRecords [⟨1, none, none, none, some 1, none, some (toRStr "DP-1"),
        false, none⟩,
      ⟨2, none, none, none, none, none, none, false, none⟩]).Pairwise
      (fun a b => keyLtb (sessionKey a) (sessionKey b) = true) :=
  (c4_replay_ordering _ (by decide)).2

/-- Claim C5: the launch command a captured window is saved with is the
config mapping's entry for its `app_id` when one exists, the `app_id`
itself when unmapped, and absent exactly when `app_id` is absent. -/
theorem c5_launch_resolution (config : Config) (workspaces : List Workspace)
    (window : Window) :
    (sessionWindowOf config workspaces window).launch_command =
      window.app_id.map
        (fun app_id => (config.launch.lookup app_id).getD app_id) ∧
    ((sessionWindowOf config workspaces window).launch_command = none ↔
      window.app_id = none) := by
  have h1 : (sessionWindowOf config workspaces window).launch_command =
      window.app_id.map
        (fun app_id => (config.launch.lookup app_id).getD app_id) := by
    cases happ : window.app_id with
    | none => simp [sessionWindowOf, happ]
    | some a =>
      cases hl : config.launch.lookup a <;>
        simp [sessionWindowOf, happ, hl, Option.orElse]
  refine ⟨h1, ?_⟩
  rw [h1]
  cases window.app_id <;> simp

/-- Claim C5, witness: the spec's three examples, with config mapping
`foo-app ↦ foo-launch`. -/
theorem c5_launch_resolution_witness :
    (sessionWindowOf ⟨⟨[]⟩, [(toRStr "foo-app", toRStr "foo-launch")]⟩ []
      ⟨1, some (toRStr "foo-app"), none, none, false, (0, 0)⟩).launch_command
        = some (toRStr "foo-launch") ∧
    (sessionWindowOf ⟨⟨[]⟩, [(toRStr "foo-app", toRStr "foo-launch")]⟩ []
      ⟨2, some (toRStr "bar-app"), none, none, false, (0, 0)⟩).launch_command
        = some (toRStr "bar-app") ∧
    (sessionWindowOf ⟨⟨[]⟩, [(toRStr "foo-app", toRStr "foo-launch")]⟩ []
      ⟨3, none, none, none, false, (0, 0)⟩).launch_command = none := by
  refine ⟨?_, ?_, ?_⟩
  · rw [(c5_launch_resolution _ _ _).1]; decide
  · rw [(c5_launch_resolution _ _ _).1]; decide
  · rw [(c5_launch_resolution _ _ _).1]; decide

/-! ### Poll-loop lemmas -/

theorem placeFound_result_sendErr (env : SpawnEnv) (nw : Window)
    (ref : WorkspaceRef) (wout : Option RStr) (wsize : Option (Int × Int))
    (code : Nat) (hmw : env.moveWorkspaceSend = .error code) :
    (placeFound env nw ref wout wsize).result =
      .error (.niri (.send code)) := by
  simp [placeFound, hmw]

theorem placeFound_result_replyErr (env : SpawnEnv) (nw : Window)
    (ref : WorkspaceRef) (wout : Option RStr) (wsize : Option (Int × Int))
    (msg : RStr) (hmw : env.moveWorkspaceSend = .ok (.error msg)) :
    (placeFound env nw ref wout wsize).result =
      .error (.niri (.reply msg)) := by
  simp [placeFound, hmw]

theorem placeFound_result_ok (env : SpawnEnv) (nw : Window)
    (ref : WorkspaceRef) (wout : Option RStr) (wsize : Option (Int × Int))
    (resp : Response) (hmw : env.moveWorkspaceSend = .ok (.ok resp)) :
    (placeFound env nw ref wout wsize).result = .ok () := by
  simp [placeFound, hmw]

theorem pollLoop_all_missed (env : SpawnEnv) (lc app : RStr)
    (ref : WorkspaceRef) (wout : Option RStr) (wsize : Option (Int × Int))
    (existing : List Nat) :
    ∀ fuel attempt : Nat,
    (∀ k, attempt ≤ k → k < attempt + fuel →
      ∃ ls, env.pollWindows k = .ok ls ∧
        findNewWindow ls app existing = none) →
    pollLoop env lc app ref wout wsize existing fuel attempt =
      { actions := [], logs := [.warnSpawnTimeout lc], polls := fuel,
        result := .ok () } := by
  intro fuel
  induction fuel with
  | zero => intro attempt _; rfl
  | succ n ih =>
    intro attempt h
    obtain ⟨ls, hok, hfind⟩ := h attempt (Nat.le_refl _) (by omega)
    have hrest := ih (attempt + 1) (fun k hk1 hk2 => h k (by omega) (by omega))
    simp only [pollLoop, hok, hfind, hrest]

theorem pollLoop_error (env : SpawnEnv) (lc app : RStr) (ref : WorkspaceRef)
    (wout : Option RStr) (wsize : Option (Int × Int)) (existing : List Nat) :
    ∀ fuel attempt : Nat,
    (∀ k, attempt ≤ k → k < attempt + fuel →
      ∃ ls, env.pollWindows k = .ok ls) →
    ∀ e, (pollLoop env lc app ref wout wsize existing fuel attempt).result =
      .error e →
    (∃ k ls w, attempt ≤ k ∧ k < attempt + fuel ∧
      env.pollWindows k = .ok ls ∧ findNewWindow ls app existing = some w) ∧
    ((∃ code, env.moveWorkspaceSend = .error code ∧
        e = .niri (.send code)) ∨
      (∃ msg, env.moveWorkspaceSend = .ok (.error msg) ∧
        e = .niri (.reply msg))) := by
  intro fuel
  induction fuel with
  | zero => intro attempt _ e herr; cases herr
  | succ n ih =>
    intro attempt h e herr
    obtain ⟨ls, hok⟩ := h attempt (Nat.le_refl _) (by omega)
    rw [pollLoop, hok] at herr
    dsimp only at herr
    cases hfind : findNewWindow ls app existing with
    | none =>
      rw [hfind] at herr
      dsimp only at herr
      obtain ⟨⟨k, ls', w, hk1, hk2, hok', hfind'⟩, hmove⟩ :=
        ih (attempt + 1) (fun k hk1 hk2 => h k (by omega) (by omega)) e herr
      exact ⟨⟨k, ls', w, by omega, by omega, hok', hfind'⟩, hmove⟩
    | some w =>
      rw [hfind] at herr
      dsimp only at herr
      refine ⟨⟨attempt, ls, w, Nat.le_refl _, by omega, hok, hfind⟩, ?_⟩
      cases hmw : env.moveWorkspaceSend with
      | error code =>
        rw [placeFound_result_sendErr env w ref wout wsize code hmw] at herr
        simp only [Except.error.injEq] at herr
        subst herr
        exact Or.inl ⟨code, rfl, rfl⟩
      | ok inner =>
        cases inner with
        | error msg =>
          rw [placeFound_result_replyErr env w ref wout wsize msg hmw] at herr
          simp only [Except.error.injEq] at herr
          subst herr
          exact Or.inr ⟨msg, rfl, rfl⟩
        | ok resp =>
          rw [placeFound_result_ok env w ref wout wsize resp hmw] at herr
          cases herr

theorem pollLoop_success (env : SpawnEnv) (lc app : RStr)
    (ref : WorkspaceRef) (wout : Option RStr) (wsize : Option (Int × Int))
    (existing : List Nat) (resp : Response)
    (hmw : env.moveWorkspaceSend = .ok (.ok resp)) :
    ∀ fuel attempt : Nat,
    (∀ k, attempt ≤ k → k < attempt + fuel →
      ∃ ls, env.pollWindows k = .ok ls) →
    (pollLoop env lc app ref wout wsize existing fuel attempt).result =
      .ok () := by
  intro fuel
  induction fuel with
  | zero => intro attempt _; rfl
  | succ n ih =>
    intro attempt h
    obtain ⟨ls, hok⟩ := h attempt (Nat.le_refl _) (by omega)
    rw [pollLoop, hok]
    dsimp only
    cases hfind : findNewWindow ls app existing with
    | none =>
      dsimp only
      exact ih (attempt + 1) (fun k hk1 hk2 => h k (by omega) (by omega))
    | some w =>
      dsimp only
      exact placeFound_result_ok env w ref wout wsize resp hmw

/-! ### Snapshot round-trip -/

theorem decode_encode_window (w : SessionWindow) :
    decodeSessionWindow (encodeSessionWindow w) = .ok w := by
  obtain ⟨i, a, t, lc, wi, wn, wo, f, ws⟩ := w
  cases a <;> cases t <;> cases lc <;> cases wi <;> cases wn <;> cases wo <;>
    rcases ws with _ | ⟨pw, ph⟩ <;> rfl

/-- Claim C9: serializing any session — records with all optional fields
absent, all fields populated, or anything in between — and deserializing
the result yields field-for-field equal records. -/
theorem c9_session_roundtrip (l : List SessionWindow) :
    decodeSessionList (encodeSessionList l) = .ok l := by
  have hlist : ∀ ws : List SessionWindow,
      decodeSessionList.decodeWindows (ws.map encodeSessionWindow) = .ok ws := by
    intro ws
    induction ws with
    | nil => rfl
    | cons w rest ih =>
      simp only [List.map, decodeSessionList.decodeWindows,
        decode_encode_window w, ih]
      rfl
  simpa [decodeSessionList, encodeSessionList] using hlist l

/-! ### Error propagation and timeout during placement -/

/-- Claim C1, counterexample: an error reply to the move-to-output action
is a failure of that best-effort sub-step, yet the placement step emits no
log at all for it — it is silently ignored rather than logged as a
warning (the non-propagation half of the claim does hold: the result is
still success). -/
theorem c1_counterexample_output_reply_ignored :
    (placeFound
      { okSpawnEnv with moveMonitorSend := .ok (.error (toRStr "denied")) }
      ⟨5, some (toRStr "firefox"), none, none, false, (0, 0)⟩
      (.name (toRStr "web")) (some (toRStr "DP-1")) none).logs = [] ∧
    (placeFound
      { okSpawnEnv with moveMonitorSend := .ok (.error (toRStr "denied")) }
      ⟨5, some (toRStr "firefox"), none, none, false, (0, 0)⟩
      (.name (toRStr "web")) (some (toRStr "DP-1")) none).result =
      .ok () := by
  constructor <;> rfl

/-- Claim C1 (amended): with the action-socket connection, the pre-spawn
window query, the io-level spawn send and every poll's window query
succeeding, (1) the only error a spawn-and-place pass propagates is a
failure (send error or error reply) of the move-to-workspace action, and
only after a new window has been discovered by some poll; (2) an
acknowledged move-to-workspace makes the pass succeed no matter how the
move-to-output or resize sends fare; (3) a pass in which no poll ever
discovers a new matching window returns success (the timeout is not an
error); and (4) at the placement step an io-level failure of the
move-to-output send is logged as a warning while an error reply to it is
silently ignored (no warning), and likewise io-level failures of the
width/height resize sends are logged as warnings while error replies to
them are silently ignored (no warning). -/
theorem c1_error_propagation (env : SpawnEnv) (lc app : RStr)
    (title : Option RStr) (widx : Option Nat) (wname wout : Option RStr)
    (wsize : Option (Int × Int)) (before : List Window)
    (ls : Nat → List Window)
    (hc : env.connect = .ok ())
    (hb : env.windowsBefore = .ok before)
    (hs : ∃ r, env.spawnSend = .ok r)
    (hp : ∀ k, k < 20 → env.pollWindows k = .ok (ls k)) :
    (∀ e, (spawn_and_move_window env lc app title widx wname wout
        wsize).result = .error e →
      (∃ k w, k < 20 ∧
        findNewWindow (ls k) app (before.map (fun w => w.id)) = some w) ∧
      ((∃ code, env.moveWorkspaceSend = .error code ∧
          e = .niri (.send code)) ∨
        (∃ msg, env.moveWorkspaceSend = .ok (.error msg) ∧
          e = .niri (.reply msg)))) ∧
    (∀ resp, env.moveWorkspaceSend = .ok (.ok resp) →
      (spawn_and_move_window env lc app title widx wname wout
        wsize).result = .ok ()) ∧
    ((∀ k, k < 20 →
        findNewWindow (ls k) app (before.map (fun w => w.id)) = none) →
      (spawn_and_move_window env lc app title widx wname wout
        wsize).result = .ok ()) ∧
    (∀ (nw : Window) (ref : WorkspaceRef) (output : RStr)
        (sz : Option (Int × Int)),
      ((∃ code, env.moveMonitorSend = .error code) →
        .warnMoveOutput ∈ (placeFound env nw ref (some output) sz).logs) ∧
      (∀ msg, env.moveMonitorSend = .ok (.error msg) →
        .warnMoveOutput ∉ (placeFound env nw ref (some output) sz).logs) ∧
      (∀ resp w h code, env.moveWorkspaceSend = .ok (.ok resp) →
        sz = some (w, h) → env.setWidthSend = .error code →
        .warnSetWidth ∈ (placeFound env nw ref (some output) sz).logs) ∧
      (∀ msg, env.setWidthSend = .ok (.error msg) →
        .warnSetWidth ∉ (placeFound env nw ref (some output) sz).logs) ∧
      (∀ resp w h code, env.moveWorkspaceSend = .ok (.ok resp) →
        sz = some (w, h) → env.setHeightSend = .error code →
        .warnSetHeight ∈ (placeFound env nw ref (some output) sz).logs) ∧
      (∀ msg, env.setHeightSend = .ok (.error msg) →
        .warnSetHeight ∉ (placeFound env nw ref (some output) sz).logs)) := by
  obtain ⟨r, hr⟩ := hs
  refine ⟨?_, ?_, ?_, ?_⟩
  · intro e herr
    rcases r with s | resp0
    · simp [spawn_and_move_window, hc, hb, hr] at herr
    · cases resp0 with
      | other t => simp [spawn_and_move_window, hc, hb, hr] at herr
      | handled =>
        cases href : workspaceRefOf widx wname with
        | none => simp [spawn_and_move_window, hc, hb, hr, href] at herr
        | some ref =>
          simp only [spawn_and_move_window, hc, hb, hr, href] at herr
          obtain ⟨⟨k, ls', w, hk0, hk20, hok', hfind'⟩, hmove⟩ :=
            pollLoop_error env lc app ref wout wsize
              (before.map (fun w => w.id)) 20 0
              (fun k hk1 hk2 => ⟨ls k, hp k (by omega)⟩) e herr
          have h2 := hp k (by omega)
          rw [h2] at hok'
          simp only [Except.ok.injEq] at hok'
          subst hok'
          exact ⟨⟨k, w, by omega, hfind'⟩, hmove⟩
  · intro resp hmw
    rcases r with s | resp0
    · simp [spawn_and_move_window, hc, hb, hr]
    · cases resp0 with
      | other t => simp [spawn_and_move_window, hc, hb, hr]
      | handled =>
        cases href : workspaceRefOf widx wname with
        | none => simp [spawn_and_move_window, hc, hb, hr, href]
        | some ref =>
          simp only [spawn_and_move_window, hc, hb, hr, href]
          exact pollLoop_success env lc app ref wout wsize
            (before.map (fun w => w.id)) resp hmw 20 0
            (fun k hk1 hk2 => ⟨ls k, hp k (by omega)⟩)
  · intro hnone
    rcases r with s | resp0
    · simp [spawn_and_move_window, hc, hb, hr]
    · cases resp0 with
      | other t => simp [spawn_and_move_window, hc, hb, hr]
      | handled =>
        cases href : workspaceRefOf widx wname with
        | none => simp [spawn_and_move_window, hc, hb, hr, href]
        | some ref =>
          simp only [spawn_and_move_window, hc, hb, hr, href]
          rw [pollLoop_all_missed env lc app ref wout wsize
            (before.map (fun w => w.id)) 20 0
            (fun k hk1 hk2 => ⟨ls k, hp k (by omega), hnone k (by omega)⟩)]
  · intro nw ref output sz
    refine ⟨?_, ?_, ?_, ?_, ?_, ?_⟩
    · rintro ⟨code, hmm⟩
      cases hmw : env.moveWorkspaceSend with
      | error c => simp [placeFound, hmm, hmw]
      | ok inner =>
        cases inner with
        | error m => simp [placeFound, hmm, hmw]
        | ok resp => simp [placeFound, hmm, hmw]
    · intro msg hmm
      cases hmw : env.moveWorkspaceSend with
      | error c => simp [placeFound, hmm, hmw]
      | ok inner =>
        cases inner with
        | error m => simp [placeFound, hmm, hmw]
        | ok resp =>
          rcases sz with _ | ⟨w, h⟩
          · simp [placeFound, hmm, hmw]
          · cases hw : env.setWidthSend <;> cases hh : env.setHeightSend <;>
              simp [placeFound, hmm, hmw, hw, hh]
    · intro resp w h code hmw hsz hw
      simp [placeFound, hmw, hsz, hw]
    · intro msg hw
      cases hmw : env.moveWorkspaceSend with
      | error c =>
        cases hmm2 : env.moveMonitorSend <;> simp [placeFound, hmw, hmm2]
      | ok inner =>
        cases inner with
        | error m =>
          cases hmm2 : env.moveMonitorSend <;> simp [placeFound, hmw, hmm2]
        | ok resp =>
          rcases sz with _ | ⟨w, h⟩
          · cases hmm2 : env.moveMonitorSend <;>
              simp [placeFound, hmw, hmm2]
          · cases hmm2 : env.moveMonitorSend <;>
              cases hh : env.setHeightSend <;>
              simp [placeFound, hmw, hmm2, hw, hh]
    · intro resp w h code hmw hsz hh
      simp [placeFound, hmw, hsz, hh]
    · intro msg hh
      cases hmw : env.moveWorkspaceSend with
      | error c =>
        cases hmm2 : env.moveMonitorSend <;> simp [placeFound, hmw, hmm2]
      | ok inner =>
        cases inner with
        | error m =>
          cases hmm2 : env.moveMonitorSend <;> simp [placeFound, hmw, hmm2]
        | ok resp =>
          rcases sz with _ | ⟨w, h⟩
          · cases hmm2 : env.moveMonitorSend <;>
              simp [placeFound, hmw, hmm2]
          · cases hmm2 : env.moveMonitorSend <;>
              cases hw : env.setWidthSend <;>
              simp [placeFound, hmw, hmm2, hw, hh]

/-- Claim C1, witness: in the all-succeeding oracle whose window lists are
always empty, a pass with a named workspace target returns success. -/
theorem c1_error_propagation_witness :
    (spawn_and_move_window okSpawnEnv (toRStr "firefox") (toRStr "firefox")
      none none (some (toRStr "web")) none none).result = .ok () := by
  have h := c1_error_propagation okSpawnEnv (toRStr "firefox")
    (toRStr "firefox") none none (some (toRStr "web")) none none []
    (fun _ => []) rfl rfl ⟨.ok .handled, rfl⟩ (fun k _ => rfl)
  exact h.2.1 .handled rfl

/-- Claim C3: when a record is actually being placed — the spawn was
acknowledged and a workspace target exists — and no poll ever discovers a
new window with the expected app_id, the wait loop performs exactly 20
polls, each preceded by a sleep of `WINDOW_POLL_INTERVAL` (250 ms, ≈5 s
total), logs the timeout warning and returns success, so the restore loop
proceeds with the next record instead of blocking. -/
theorem c3_timeout_bound (env : SpawnEnv) (lc app : RStr)
    (title : Option RStr) (widx : Option Nat) (wname wout : Option RStr)
    (wsize : Option (Int × Int)) (before : List Window)
    (ls : Nat → List Window) (ref : WorkspaceRef)
    (hc : env.connect = .ok ())
    (hb : env.windowsBefore = .ok before)
    (hs : env.spawnSend = .ok (.ok .handled))
    (href : workspaceRefOf widx wname = some ref)
    (hp : ∀ k, k < 20 → env.pollWindows k = .ok (ls k))
    (hnone : ∀ k, k < 20 →
      findNewWindow (ls k) app (before.map (fun w => w.id)) = none) :
    spawn_and_move_window env lc app title widx wname wout wsize =
      { actions := [.spawn (buildCommand env lc app title)],
        logs := [.warnSpawnTimeout lc], polls := 20, result := .ok () } ∧
    WINDOW_POLL_INTERVAL = 250 ∧ 20 * WINDOW_POLL_INTERVAL = 5000 := by
  refine ⟨?_, rfl, rfl⟩
  have hloop := pollLoop_all_missed env lc app ref wout wsize
    (before.map (fun w => w.id)) 20 0
    (fun k hk1 hk2 => ⟨ls k, hp k (by omega), hnone k (by omega)⟩)
  simp only [spawn_and_move_window, hc, hb, hs, href, hloop]

/-- Claim C3, witness: the timeout outcome at a concrete all-succeeding
oracle whose polls never show any window. -/
theorem c3_timeout_bound_witness :
    spawn_and_move_window okSpawnEnv (toRStr "firefox") (toRStr "firefox")
      none (some 3) none none none =
      { actions := [.spawn (buildCommand okSpawnEnv (toRStr "firefox")
          (toRStr "firefox") none)],
        logs := [.warnSpawnTimeout (toRStr "firefox")], polls := 20,
        result := .ok () } :=
  (c3_timeout_bound okSpawnEnv (toRStr "firefox") (toRStr "firefox") none
    (some 3) none none none [] (fun _ => []) (.index 3) rfl rfl rfl rfl
    (fun _ _ => rfl) (fun _ _ => rfl)).1

/-! ### Restore-loop behavior per record -/

/-- Claim C7: a record whose resolved launch command is in the configured
skip-list is never spawned: its restore step issues no compositor action
at all, logs the skip notice, and succeeds, so restoration continues with
the next record. -/
theorem c7_skip_list (config : Config) (env : SpawnEnv) (w : SessionWindow)
    (cmd : RStr) (hcmd : w.launch_command = some cmd)
    (hskip : cmd ∈ config.skip.apps) :
    processRecord config env w =
      { actions := [], logs := [.infoSkip cmd], polls := 0,
        result := .ok () } := by
  simp [processRecord, hcmd, hskip]

/-- Claim C7, witness: a record launching `zoom` with `zoom` on the
skip-list is skipped. -/
theorem c7_skip_list_witness :
    processRecord ⟨⟨[toRStr "zoom"]⟩, []⟩ okSpawnEnv
      ⟨7, some (toRStr "Zoom"), none, some (toRStr "zoom"), none, none,
        none, false, none⟩ =
      { actions := [], logs := [.infoSkip (toRStr "zoom")], polls := 0,
        result := .ok () } :=
  c7_skip_list ⟨⟨[toRStr "zoom"]⟩, []⟩ okSpawnEnv
    ⟨7, some (toRStr "Zoom"), none, some (toRStr "zoom"), none, none, none,
      false, none⟩ (toRStr "zoom") rfl (by decide)

/-- Claim C10: a record with an absent `app_id` is never spawned even when
its launch command is present and not skip-listed: its restore step issues
no compositor action and succeeds. -/
theorem c10_no_app_id_no_spawn (config : Config) (env : SpawnEnv)
    (w : SessionWindow) (happ : w.app_id = none) :
    (processRecord config env w).actions = [] ∧
    (processRecord config env w).result = .ok () := by
  cases hlc : w.launch_command with
  | none => simp [processRecord, hlc]
  | some cmd =>
    by_cases hskip : cmd ∈ config.skip.apps
    · simp [processRecord, hlc, hskip]
    · simp [processRecord, hlc, hskip, happ]

/-- Claim C10, witness: a record with launch command `alacritty`, an empty
skip-list and no `app_id` issues no action and succeeds. -/
theorem c10_no_app_id_no_spawn_witness :
    (processRecord ⟨⟨[]⟩, []⟩ okSpawnEnv
      ⟨9, none, none, some (toRStr "alacritty"), none, none, none, false,
        none⟩).actions = [] ∧
    (processRecord ⟨⟨[]⟩, []⟩ okSpawnEnv
      ⟨9, none, none, some (toRStr "alacritty"), none, none, none, false,
        none⟩).result = .ok () :=
  c10_no_app_id_no_spawn ⟨⟨[]⟩, []⟩ okSpawnEnv
    ⟨9, none, none, some (toRStr "alacritty"), none, none, none, false,
      none⟩ rfl

/-! ### Bootstrap restore -/

/-- Claim C8, counterexample: with no snapshot present and a compositor
that cannot be reached, the bootstrap save fails and restore propagates
that error instead of returning success, so restore against a missing
snapshot does not always return success. -/
theorem c8_counterexample_bootstrap_save_failure :
    (restore_session ⟨⟨[]⟩, []⟩
      { sessionExists := false,
        saveEnv := ⟨.error (.connect 0), .error (.connect 0), .ok ()⟩,
        readFile := .ok [], parsedJson := .ok .null,
        spawnEnvs := fun _ => okSpawnEnv }).result =
      .error (.niri (.connect 0)) ∧
    ¬ (restore_session ⟨⟨[]⟩, []⟩
      { sessionExists := false,
        saveEnv := ⟨.error (.connect 0), .error (.connect 0), .ok ()⟩,
        readFile := .ok [], parsedJson := .ok .null,
        spawnEnvs := fun _ => okSpawnEnv }).result = .ok () := by
  refine ⟨rfl, ?_⟩
  intro h
  cases h

/-- Claim C8, amended: restoring against a non-existent snapshot path
performs a Save instead of restoring — no placement actions are issued and
the written snapshot is exactly the Save's — and returns the Save's
result: success whenever the bootstrap Save succeeds, the Save's error
otherwise. -/
theorem c8_bootstrap (config : Config) (env : RestoreEnv)
    (hmiss : env.sessionExists = false) :
    (restore_session config env).actions = [] ∧
    (restore_session config env).saved =
      (save_session env.saveEnv config).written ∧
    (restore_session config env).result =
      (save_session env.saveEnv config).result ∧
    ((save_session env.saveEnv config).result = .ok () →
      (restore_session config env).result = .ok ()) := by
  refine ⟨?_, ?_, ?_, ?_⟩ <;> simp [restore_session, hmiss]

/-- Claim C8, witness: with a missing snapshot and an all-succeeding save
oracle, restore issues no actions and returns success. -/
theorem c8_bootstrap_witness :
    (restore_session ⟨⟨[]⟩, []⟩
      { sessionExists := false, saveEnv := ⟨.ok [], .ok [], .ok ()⟩,
        readFile := .ok [], parsedJson := .ok .null,
        spawnEnvs := fun _ => okSpawnEnv }).actions = [] ∧
    (restore_session ⟨⟨[]⟩, []⟩
      { sessionExists := false, saveEnv := ⟨.ok [], .ok [], .ok ()⟩,
        readFile := .ok [], parsedJson := .ok .null,
        spawnEnvs := fun _ => okSpawnEnv }).result = .ok () := by
  have h := c8_bootstrap ⟨⟨[]⟩, []⟩
    { sessionExists := false, saveEnv := ⟨.ok [], .ok [], .ok ()⟩,
      readFile := .ok [], parsedJson := .ok .null,
      spawnEnvs := fun _ => okSpawnEnv } rfl
  exact ⟨h.1, h.2.2.2 rfl⟩

end Nirinit
